import Mathlib

/-!
# A generic HTTP-to-SQL gateway (`sqlsrv.go`): embedding and verified properties

The development translates `authMiddleware`, `handleDatabaseRequest`,
`handleInsert`, `handleUpdate`, `handlePatch` and `handleDelete` into pure
functions on an explicit state and proves properties of the statements they
build and of the responses they write.

Modelling conventions.

* A Go `string` is a Lean `String`; the functions of package `strings` are
  defined on the character sequence `String.data`.
* A call `fmt.Sprintf(f, a, b, ...)` whose format only uses `%s`, `%v` and `%d`
  is the concatenation of the literal pieces of `f` with the renderings of the
  arguments.
* A Go `error` is the text returned by its `Error()` method.
* A panic is the `Except.error` result of a handler; a handler that runs to its
  end returns `Except.ok` of the final state.
* `go f(...)` inside the handlers is run to completion at the point where it is
  started. The other order, in which the function registered as handler has
  returned and the server has completed the response before the detached task
  writes, is obtained by running the task on `finishRequest w`.
* `encoding/json` and the store behind `database/sql` are parameters: the
  decoder `dec` maps a body to an error or to the decoded map, which is given
  as the list of its entries in the order in which `range` visits them.
-/

namespace Sqlsrv

/-! ## Data model -/

/-- Dynamically typed values: what `encoding/json` stores in an `interface{}`,
which is also the type of the arguments of `ExecContext`. -/
inductive Value where
  | null : Value
  | bool (b : Bool) : Value
  | num (x : Rat) : Value
  | str (s : String) : Value
  | arr (xs : List Value) : Value
  | obj (kvs : List (String × Value)) : Value

/-- The decoded body `map[string]interface{}`, as the sequence of pairs that
`for k, v := range data` yields. -/
abbrev FieldSet := List (String × Value)

/-- A SQL text together with its bound arguments. -/
abbrev Statement := String × List Value

/-- The result of `json.NewDecoder(r.Body).Decode(&data)`. -/
abbrev Decoder := String → Except String FieldSet

/-- The value of type `sql.Result`: only `RowsAffected()` is used. -/
structure Result where
  RowsAffected : Except String Int

/-- The handle `*sql.DB`: only `ExecContext` is used. -/
structure DB where
  ExecContext : String → List Value → Except String Result

/-- The parts of `*http.Request` the program reads; `Vars` is `mux.Vars(r)`. -/
structure Request where
  Method : String
  Header : List (String × List String)
  Vars : List (String × String)
  Body : String

/-- The observable state of `http.ResponseWriter`: the status line once it is
fixed, the body written so far and the number of `Write` calls received. -/
structure ResponseWriter where
  status : Option Nat
  body : String
  writes : Nat

/-- The state threaded through a request: the response writer, the statements
assembled so far and the statements submitted to the store. -/
structure State where
  w : ResponseWriter
  built : List Statement
  execs : List Statement

/-- An `http.HandlerFunc`; the error case is a panic. -/
abbrev HandlerFunc := State → Request → Except String State

/-- The state in which a request starts. -/
def State.init : State :=
  { w := { status := none, body := "", writes := 0 }, built := [], execs := [] }

/-! ## Library functions used by the program -/

def StatusBadRequest : Nat := 400
def StatusUnauthorized : Nat := 401
def StatusMethodNotAllowed : Nat := 405
def StatusInternalServerError : Nat := 500
def StatusOK : Nat := 200

def MethodPost : String := "POST"
def MethodPut : String := "PUT"
def MethodPatch : String := "PATCH"
def MethodDelete : String := "DELETE"

/-- `w.WriteHeader(code)`: the first status written is the one that counts. -/
def ResponseWriter.WriteHeader (w : ResponseWriter) (code : Nat) : ResponseWriter :=
  match w.status with
  | some _ => w
  | none => { w with status := some code }

/-- `w.Write(b)`: fixes the status to 200 when none was written, then appends. -/
def ResponseWriter.Write (w : ResponseWriter) (b : String) : ResponseWriter :=
  let w1 := w.WriteHeader StatusOK
  { w1 with body := w1.body ++ b, writes := w1.writes + 1 }

/-- `http.Error(w, msg, code)`: writes the status, then `msg` and a newline. -/
def httpError (w : ResponseWriter) (msg : String) (code : Nat) : ResponseWriter :=
  (w.WriteHeader code).Write (msg ++ "\n")

/-- What `net/http` does to the response once the function registered as
handler has returned: a response that has no status yet gets status 200. -/
def finishRequest (w : ResponseWriter) : ResponseWriter :=
  w.WriteHeader StatusOK

/-- `r.Header.Get(key)`: the first value stored under `key`, or `""`. -/
def Request.HeaderGet (r : Request) (key : String) : String :=
  match r.Header.lookup key with
  | some (v :: _) => v
  | _ => ""

/-- Indexing `mux.Vars(r)`: a missing key reads as `""`. -/
def Request.Var (r : Request) (key : String) : String :=
  (r.Vars.lookup key).getD ""

/-- `strings.HasPrefix(s, pre)`. -/
def HasPrefix (s pre : String) : Bool :=
  decide (pre.data.length ≤ s.data.length) && (s.data.take pre.data.length == pre.data)

/-- `strings.TrimPrefix(s, pre)`. -/
def TrimPrefix (s pre : String) : String :=
  if HasPrefix s pre then ⟨s.data.drop pre.data.length⟩ else s

/-- `strings.Join(elems, sep)`. -/
def Join (elems : List String) (sep : String) : String :=
  match elems with
  | [] => ""
  | [e] => e
  | e :: rest => rest.foldl (fun b s => b ++ sep ++ s) e

/-- `strings.Repeat(s, count)`, which panics on a negative count. Its second
panic, on a result longer than an `int` can index, has no counterpart here:
texts are unbounded. -/
def Repeat (s : String) (count : Int) : Except String String :=
  if count < 0 then .error "strings: negative Repeat count"
  else .ok ((List.replicate count.toNat s).foldl (fun b t => b ++ t) "")

/-- The verb `%d` applied to an `int64`. -/
def fmtInt (n : Int) : String := toString n

/-! ## The program -/

def bearerToken : String := "your_bearer_token"

/-- Lines 113-119 of `handleInsert`: the column list, the arguments and the
query text. -/
def handleInsert.build (table : String) (data : FieldSet) : Except String Statement :=
  let columns := data.map (fun kv => kv.1)
  let values := data.map (fun kv => kv.2)
  match Repeat ", ?" ((columns.length : Int) - 1) with
  | .error p => .error p
  | .ok marks =>
    let query :=
      "INSERT INTO " ++ table ++ " (" ++ Join columns ", " ++ ") VALUES (" ++ ("?" ++ marks) ++ ")"
    .ok (query, values)

/-- Lines 144-151 of `handleUpdate`. -/
def handleUpdate.build (table id : String) (data : FieldSet) : Statement :=
  let updates := data.map (fun kv => kv.1 ++ " = ?")
  let values := data.map (fun kv => kv.2)
  let query := "UPDATE " ++ table ++ " SET " ++ Join updates ", " ++ " WHERE id = ?"
  let values := values ++ [Value.str id]
  (query, values)

/-- Lines 176-183 of `handlePatch`. -/
def handlePatch.build (table id : String) (data : FieldSet) : Statement :=
  let updates := data.map (fun kv => kv.1 ++ " = ?")
  let values := data.map (fun kv => kv.2)
  let query := "UPDATE " ++ table ++ " SET " ++ Join updates ", " ++ " WHERE id = ?"
  let values := values ++ [Value.str id]
  (query, values)

/-- Lines 201-204 of `handleDelete`. -/
def handleDelete.build (table id : String) : Statement :=
  let query := "DELETE FROM " ++ table ++ " WHERE id = ?"
  (query, [Value.str id])

/-- The detached task of `handleInsert` (lines 121-133). -/
def handleInsert.run (db : DB) (w : ResponseWriter) (query : String) (values : List Value) :
    ResponseWriter :=
  match db.ExecContext query values with
  | .error err => httpError w ("Error inserting data: " ++ err) StatusInternalServerError
  | .ok result =>
    match result.RowsAffected with
    | .error err => httpError w ("Error getting affected rows: " ++ err) StatusInternalServerError
    | .ok rowsAffected => w.Write (fmtInt rowsAffected ++ " row(s) inserted")

/-- The detached task of `handleUpdate` (lines 153-165). -/
def handleUpdate.run (db : DB) (w : ResponseWriter) (query : String) (values : List Value) :
    ResponseWriter :=
  match db.ExecContext query values with
  | .error err => httpError w ("Error updating data: " ++ err) StatusInternalServerError
  | .ok result =>
    match result.RowsAffected with
    | .error err => httpError w ("Error getting affected rows: " ++ err) StatusInternalServerError
    | .ok rowsAffected => w.Write (fmtInt rowsAffected ++ " row(s) updated")

/-- The detached task of `handlePatch` (lines 185-197). -/
def handlePatch.run (db : DB) (w : ResponseWriter) (query : String) (values : List Value) :
    ResponseWriter :=
  match db.ExecContext query values with
  | .error err => httpError w ("Error patching data: " ++ err) StatusInternalServerError
  | .ok result =>
    match result.RowsAffected with
    | .error err => httpError w ("Error getting affected rows: " ++ err) StatusInternalServerError
    | .ok rowsAffected => w.Write (fmtInt rowsAffected ++ " row(s) patched")

/-- The detached task of `handleDelete` (lines 203-215). -/
def handleDelete.run (db : DB) (w : ResponseWriter) (query : String) (values : List Value) :
    ResponseWriter :=
  match db.ExecContext query values with
  | .error err => httpError w ("Error deleting data: " ++ err) StatusInternalServerError
  | .ok result =>
    match result.RowsAffected with
    | .error err => httpError w ("Error getting affected rows: " ++ err) StatusInternalServerError
    | .ok rowsAffected => w.Write (fmtInt rowsAffected ++ " row(s) deleted")

/-- The function `handleInsert`. -/
def handleInsert (dec : Decoder) (st : State) (r : Request) (db : DB) (table : String) :
    Except String State :=
  match dec r.Body with
  | .error _ => .ok { st with w := httpError st.w "Invalid JSON data" StatusBadRequest }
  | .ok data =>
    match handleInsert.build table data with
    | .error p => .error p
    | .ok (query, values) =>
      .ok { w := handleInsert.run db st.w query values
            built := st.built ++ [(query, values)]
            execs := st.execs ++ [(query, values)] }

/-- The function `handleUpdate`. -/
def handleUpdate (dec : Decoder) (st : State) (r : Request) (db : DB) (table id : String) :
    Except String State :=
  match dec r.Body with
  | .error _ => .ok { st with w := httpError st.w "Invalid JSON data" StatusBadRequest }
  | .ok data =>
    match handleUpdate.build table id data with
    | (query, values) =>
      .ok { w := handleUpdate.run db st.w query values
            built := st.built ++ [(query, values)]
            execs := st.execs ++ [(query, values)] }

/-- The function `handlePatch`. -/
def handlePatch (dec : Decoder) (st : State) (r : Request) (db : DB) (table id : String) :
    Except String State :=
  match dec r.Body with
  | .error _ => .ok { st with w := httpError st.w "Invalid JSON data" StatusBadRequest }
  | .ok data =>
    match handlePatch.build table id data with
    | (query, values) =>
      .ok { w := handlePatch.run db st.w query values
            built := st.built ++ [(query, values)]
            execs := st.execs ++ [(query, values)] }

/-- The function `handleDelete`. -/
def handleDelete (st : State) (_r : Request) (db : DB) (table id : String) :
    Except String State :=
  match handleDelete.build table id with
  | (query, values) =>
    .ok { w := handleDelete.run db st.w query values
          built := st.built ++ [(query, values)]
          execs := st.execs ++ [(query, values)] }

/-- The function `handleDatabaseRequest`. -/
def handleDatabaseRequest (dec : Decoder) (db : DB) : HandlerFunc := fun st r =>
  let table := r.Var "table"
  let id := r.Var "id"
  if r.Method = MethodPost then handleInsert dec st r db table
  else if r.Method = MethodPut then handleUpdate dec st r db table id
  else if r.Method = MethodPatch then handlePatch dec st r db table id
  else if r.Method = MethodDelete then handleDelete st r db table id
  else .ok { st with w := httpError st.w "Invalid request method" StatusMethodNotAllowed }

/-- The function `authMiddleware`. -/
def authMiddleware (next : HandlerFunc) : HandlerFunc := fun st r =>
  let authHeader := r.HeaderGet "Authorization"
  if authHeader = "" then
    .ok { st with w := httpError st.w "Authorization header missing" StatusUnauthorized }
  else
    let tokenString := TrimPrefix authHeader "Bearer "
    if tokenString ≠ bearerToken then
      .ok { st with w := httpError st.w "Invalid token" StatusUnauthorized }
    else next st r

/-- The handler registered on both routes in `main`. -/
def serve (dec : Decoder) (db : DB) : HandlerFunc :=
  authMiddleware (handleDatabaseRequest dec db)

/-! ## Reference texts and measures used in the statements -/

/-- The number of `?` characters of a SQL text. -/
def placeholders (q : String) : Nat := q.data.count '?'

/-- The text `x1, x2, ..., xn`. -/
def commaList : List String → String
  | [] => ""
  | [c] => c
  | c :: d :: cs => c ++ ", " ++ commaList (d :: cs)

/-- The text `INSERT INTO <table> (c1, c2, ..., cn) VALUES (?, ?, ..., ?)` with
as many `?` as columns. -/
def insertText (table : String) (cols : List String) : String :=
  "INSERT INTO " ++ table ++ " (" ++ commaList cols ++ ") VALUES ("
    ++ commaList (List.replicate cols.length "?") ++ ")"

/-- The text `c1 = ?, c2 = ?, ..., cn = ?`. -/
def assignList : List String → String
  | [] => ""
  | [c] => c ++ " = ?"
  | c :: d :: cs => c ++ " = ?, " ++ assignList (d :: cs)

/-- The text `UPDATE <table> SET c1 = ?, c2 = ?, ..., cn = ? WHERE id = ?`. -/
def updateText (table : String) (cols : List String) : String :=
  "UPDATE " ++ table ++ " SET " ++ assignList cols ++ " WHERE id = ?"

/-- The text `DELETE FROM <table> WHERE id = ?`. -/
def deleteText (table : String) : String :=
  "DELETE FROM " ++ table ++ " WHERE id = ?"

/-- Stripping one leading `Bearer ` from a header value when it is there. -/
def stripBearer (h : String) : String :=
  match h.data with
  | 'B' :: 'e' :: 'a' :: 'r' :: 'e' :: 'r' :: ' ' :: rest => ⟨rest⟩
  | _ => h

/-- The credential check of the specification: the header is present and,
once the scheme is stripped, equals the configured secret. -/
def accepted (h : String) : Prop :=
  h ≠ "" ∧ stripBearer h = bearerToken

instance (h : String) : Decidable (accepted h) := by
  unfold accepted; infer_instance

/-! ## Concrete instances used to evaluate the theorems -/

/-- A decoder for the sample requests: it gives `encoding/json`'s answer on the
three objects of the examples and reports any other body as malformed. The
theorems are stated for an arbitrary decoder. -/
def sampleDecode : Decoder := fun body =>
  if body = "\x7b\x7d" then .ok []
  else if body = "\x7b\"age\":31\x7d" then .ok [("age", .num 31)]
  else if body = "\x7b\"name\":\"Ada\",\"age\":30\x7d" then
    .ok [("name", .str "Ada"), ("age", .num 30)]
  else .error "invalid character"

/-- A store in which every statement succeeds and touches one row. -/
def sampleDB : DB := { ExecContext := fun _ _ => .ok { RowsAffected := .ok 1 } }

/-- A store in which every statement fails. -/
def failingDB : DB := { ExecContext := fun _ _ => .error "no such table" }

/-- The header of a request carrying the configured secret. -/
def goodHeader : List (String × List String) :=
  [("Authorization", ["Bearer your_bearer_token"])]


/-! ## Auxiliary facts on the string functions -/

theorem placeholders_append (a b : String) :
    placeholders (a ++ b) = placeholders a + placeholders b := by
  simp [placeholders, String.data_append, List.count_append]

theorem foldl_sep_append (sep a : String) (xs : List String) (b : String) :
    xs.foldl (fun b s => b ++ sep ++ s) (a ++ b) = a ++ xs.foldl (fun b s => b ++ sep ++ s) b := by
  induction xs generalizing b with
  | nil => rfl
  | cons x xs ih =>
    simp only [List.foldl_cons]
    rw [String.append_assoc, String.append_assoc, ← String.append_assoc b, ih]

theorem Join_cons_cons (c d : String) (cs : List String) (sep : String) :
    Join (c :: d :: cs) sep = c ++ sep ++ Join (d :: cs) sep := by
  have h : Join (d :: cs) sep = cs.foldl (fun b s => b ++ sep ++ s) d := by
    cases cs <;> rfl
  rw [h]
  show cs.foldl (fun b s => b ++ sep ++ s) (c ++ sep ++ d) = _
  rw [String.append_assoc, foldl_sep_append, foldl_sep_append, String.append_assoc]

theorem foldl_cat_append (a : String) (xs : List String) (b : String) :
    xs.foldl (fun b t => b ++ t) (a ++ b) = a ++ xs.foldl (fun b t => b ++ t) b := by
  induction xs generalizing b with
  | nil => rfl
  | cons x xs ih =>
    simp only [List.foldl_cons]
    rw [String.append_assoc, ih]

theorem Join_comma (cs : List String) : Join cs ", " = commaList cs := by
  induction cs with
  | nil => rfl
  | cons c cs ih =>
    cases cs with
    | nil => rfl
    | cons d cs => rw [Join_cons_cons, ih, commaList]

theorem Join_assign (cs : List String) :
    Join (cs.map (fun c => c ++ " = ?")) ", " = assignList cs := by
  induction cs with
  | nil => rfl
  | cons c cs ih =>
    cases cs with
    | nil => rfl
    | cons d cs =>
      simp only [List.map_cons] at ih ⊢
      rw [Join_cons_cons, ih, assignList, String.append_assoc c]
      rfl

theorem Repeat_ofNat (s : String) (n : Nat) :
    Repeat s (n : Int) = .ok ((List.replicate n s).foldl (fun b t => b ++ t) "") := by
  simp [Repeat]

theorem marks_eq (n : Nat) :
    "?" ++ (List.replicate n ", ?").foldl (fun b t => b ++ t) ""
      = commaList (List.replicate (n + 1) "?") := by
  induction n with
  | zero => rfl
  | succ k ih =>
    rw [List.replicate_succ, List.foldl_cons, List.replicate_succ, List.replicate_succ, commaList,
      ← List.replicate_succ, ← ih]
    have h := foldl_cat_append ", ?" (List.replicate k ", ?") ""
    rw [String.append_empty] at h
    rw [String.empty_append, h, ← String.append_assoc, ← String.append_assoc]
    rfl

theorem build_insert (table : String) (data : FieldSet) (h : data ≠ []) :
    handleInsert.build table data
      = .ok (insertText table (data.map (fun kv => kv.1)), data.map (fun kv => kv.2)) := by
  obtain ⟨n, hn⟩ : ∃ n, data.length = n + 1 := by
    cases data with
    | nil => exact absurd rfl h
    | cons a l => exact ⟨l.length, rfl⟩
  have hc : (((n + 1 : Nat) : Int) - 1) = (n : Int) := by
    push_cast; omega
  unfold handleInsert.build
  simp only [List.length_map, hn, hc, Repeat_ofNat, insertText, Join_comma, marks_eq]

theorem build_update (table id : String) (data : FieldSet) :
    handleUpdate.build table id data
      = (updateText table (data.map (fun kv => kv.1)),
          data.map (fun kv => kv.2) ++ [Value.str id]) := by
  have h := Join_assign (data.map (fun kv => kv.1))
  rw [List.map_map] at h
  simp only [handleUpdate.build, updateText, ← h]
  rfl

theorem placeholders_commaList (cs : List String) :
    placeholders (commaList cs) = (cs.map placeholders).sum := by
  induction cs with
  | nil => rfl
  | cons c cs ih =>
    cases cs with
    | nil => simp [commaList]
    | cons d cs =>
      rw [commaList, placeholders_append, placeholders_append, ih]
      simp only [List.map_cons, List.sum_cons]
      have : placeholders ", " = 0 := by decide
      omega

theorem placeholders_assignList (cs : List String) :
    placeholders (assignList cs) = cs.length + (cs.map placeholders).sum := by
  induction cs with
  | nil => rfl
  | cons c cs ih =>
    cases cs with
    | nil =>
      have : placeholders " = ?" = 1 := by decide
      simp [assignList, placeholders_append, this]; omega
    | cons d cs =>
      rw [assignList, placeholders_append, placeholders_append, ih]
      simp only [List.map_cons, List.sum_cons, List.length_cons]
      have : placeholders " = ?, " = 1 := by decide
      omega

theorem sum_placeholders_eq_zero (cs : List String) (h : ∀ c ∈ cs, placeholders c = 0) :
    (cs.map placeholders).sum = 0 := by
  induction cs with
  | nil => rfl
  | cons c cs ih =>
    simp only [List.map_cons, List.sum_cons]
    rw [h c (List.mem_cons_self _ _), ih (fun d hd => h d (List.mem_cons_of_mem _ hd))]

theorem placeholders_marks (n : Nat) :
    placeholders (commaList (List.replicate n "?")) = n := by
  rw [placeholders_commaList, List.map_replicate]
  have : placeholders "?" = 1 := by decide
  simp [this]

theorem placeholders_insertText (table : String) (cols : List String) :
    placeholders (insertText table cols)
      = placeholders table + (cols.map placeholders).sum + cols.length := by
  have h1 : placeholders "INSERT INTO " = 0 := by decide
  have h2 : placeholders " (" = 0 := by decide
  have h3 : placeholders ") VALUES (" = 0 := by decide
  have h4 : placeholders ")" = 0 := by decide
  simp only [insertText, placeholders_append, placeholders_commaList, placeholders_marks, h1, h2,
    h3, h4, List.map_replicate]
  have : placeholders "?" = 1 := by decide
  simp [this]

theorem placeholders_updateText (table : String) (cols : List String) :
    placeholders (updateText table cols)
      = placeholders table + (cols.map placeholders).sum + cols.length + 1 := by
  have h1 : placeholders "UPDATE " = 0 := by decide
  have h2 : placeholders " SET " = 0 := by decide
  have h3 : placeholders " WHERE id = ?" = 1 := by decide
  simp only [updateText, placeholders_append, placeholders_assignList, h1, h2, h3]
  omega

theorem placeholders_deleteText (table : String) :
    placeholders (deleteText table) = placeholders table + 1 := by
  have h1 : placeholders "DELETE FROM " = 0 := by decide
  have h3 : placeholders " WHERE id = ?" = 1 := by decide
  simp only [deleteText, placeholders_append, h1, h3]
  omega

theorem HasPrefix_Bearer_iff (l : List Char) :
    HasPrefix ⟨l⟩ "Bearer " = true ↔ ∃ rest, l = "Bearer ".data ++ rest := by
  constructor
  · intro hp
    simp only [HasPrefix, Bool.and_eq_true, decide_eq_true_eq, beq_iff_eq] at hp
    refine ⟨l.drop "Bearer ".data.length, ?_⟩
    have h2 : List.take "Bearer ".data.length l = "Bearer ".data := hp.2
    calc l = List.take "Bearer ".data.length l ++ List.drop "Bearer ".data.length l :=
          (List.take_append_drop _ l).symm
      _ = "Bearer ".data ++ List.drop "Bearer ".data.length l := by rw [h2]
  · rintro ⟨rest, rfl⟩
    simp [HasPrefix]

theorem TrimPrefix_Bearer (h : String) : TrimPrefix h "Bearer " = stripBearer h := by
  rcases h with ⟨l⟩
  unfold TrimPrefix
  by_cases hp : HasPrefix ⟨l⟩ "Bearer " = true
  · rw [if_pos hp]
    obtain ⟨rest, rfl⟩ := (HasPrefix_Bearer_iff l).1 hp
    rfl
  · rw [if_neg hp]
    unfold stripBearer
    split
    · rename_i rest heq
      exact absurd ((HasPrefix_Bearer_iff l).2 ⟨rest, heq⟩) hp
    · rfl

theorem accepted_iff (h : String) :
    accepted h ↔ h = "Bearer your_bearer_token" ∨ h = "your_bearer_token" := by
  rcases h with ⟨l⟩
  constructor
  · rintro ⟨_, h2⟩
    rw [← TrimPrefix_Bearer] at h2
    unfold TrimPrefix at h2
    by_cases hp : HasPrefix ⟨l⟩ "Bearer " = true
    · rw [if_pos hp] at h2
      obtain ⟨rest, rfl⟩ := (HasPrefix_Bearer_iff l).1 hp
      left
      have h3 : rest = bearerToken.data := congrArg String.data h2
      subst h3
      rfl
    · rw [if_neg hp] at h2
      right
      exact h2
  · rintro (h | h) <;> rw [h] <;> decide

theorem zip_fst_snd (l : FieldSet) : List.zip (l.map Prod.fst) (l.map Prod.snd) = l := by
  induction l with
  | nil => rfl
  | cons a l ih => simp only [List.map_cons, List.zip_cons_cons, ih]

/-! ## The statements built by the handlers -/

/-- C1: for every table name and every non-empty FieldSet iterated as
`(c1,v1),...,(cn,vn)`, the Insert builder of `handleInsert` returns exactly the
text `INSERT INTO <table> (c1, ..., cn) VALUES (?, ..., ?)` with `n`
placeholders separated by `, ` and exactly the arguments `[v1,...,vn]`; pairing
the listed columns with the arguments gives back the FieldSet, so the i-th
argument is the value of the i-th column; and `handleInsert` submits exactly
this statement to the store. -/
theorem insert_statement_exact (dec : Decoder) (db : DB) (st : State) (r : Request)
    (table : String) (data : FieldSet) (hne : data ≠ []) (hdec : dec r.Body = .ok data) :
    handleInsert.build table data
        = .ok (insertText table (data.map Prod.fst), data.map Prod.snd)
      ∧ List.zip (data.map Prod.fst) (data.map Prod.snd) = data
      ∧ (data.map Prod.snd).length = (data.map Prod.fst).length
      ∧ ∃ st', handleInsert dec st r db table = .ok st'
          ∧ st'.execs = st.execs ++ [(insertText table (data.map Prod.fst), data.map Prod.snd)] := by
  have hb := build_insert table data hne
  refine ⟨hb, ?_, by simp, ?_⟩
  · exact zip_fst_snd data
  · simp only [handleInsert, hdec, hb]
    exact ⟨_, rfl, rfl⟩

/-- The scenario `POST /users` with name=Ada, age=30 as an instance of C1. -/
theorem insert_statement_exact_witness :
    sampleDecode "\x7b\"name\":\"Ada\",\"age\":30\x7d"
        = .ok [("name", Value.str "Ada"), ("age", Value.num 30)]
      ∧ handleInsert.build "users" [("name", Value.str "Ada"), ("age", Value.num 30)]
        = .ok ("INSERT INTO users (name, age) VALUES (?, ?)", [Value.str "Ada", Value.num 30]) :=
  ⟨rfl, (insert_statement_exact sampleDecode sampleDB State.init
    ⟨"POST", goodHeader, [("table", "users")], "\x7b\"name\":\"Ada\",\"age\":30\x7d"⟩ "users"
    [("name", Value.str "Ada"), ("age", Value.num 30)] (List.cons_ne_nil _ _) rfl).1⟩

theorem build_patch (table id : String) (data : FieldSet) :
    handlePatch.build table id data
      = (updateText table (data.map (fun kv => kv.1)),
          data.map (fun kv => kv.2) ++ [Value.str id]) :=
  build_update table id data

/-- C2: for every table name, identifier and FieldSet iterated as
`(c1,v1),...,(cn,vn)`, the builders of `handleUpdate` and `handlePatch` return
exactly the text `UPDATE <table> SET c1 = ?, ..., cn = ? WHERE id = ?` and
exactly the arguments `[v1,...,vn, identifier]`, the identifier being the path
string; and both handlers submit exactly this statement to the store. -/
theorem update_patch_statement_exact (dec : Decoder) (db : DB) (st : State) (r : Request)
    (table id : String) (data : FieldSet) (hdec : dec r.Body = .ok data) :
    handleUpdate.build table id data
        = (updateText table (data.map Prod.fst), data.map Prod.snd ++ [Value.str id])
      ∧ handlePatch.build table id data
        = (updateText table (data.map Prod.fst), data.map Prod.snd ++ [Value.str id])
      ∧ (∃ st', handleUpdate dec st r db table id = .ok st'
          ∧ st'.execs = st.execs
              ++ [(updateText table (data.map Prod.fst), data.map Prod.snd ++ [Value.str id])])
      ∧ ∃ st', handlePatch dec st r db table id = .ok st'
          ∧ st'.execs = st.execs
              ++ [(updateText table (data.map Prod.fst), data.map Prod.snd ++ [Value.str id])] := by
  have hu := build_update table id data
  have hp := build_patch table id data
  refine ⟨hu, hp, ?_, ?_⟩
  · simp only [handleUpdate, hdec, hu]
    exact ⟨_, rfl, rfl⟩
  · simp only [handlePatch, hdec, hp]
    exact ⟨_, rfl, rfl⟩

/-- The scenario `PATCH /users/7` with age=31 as an instance of C2. -/
theorem update_patch_statement_exact_witness :
    sampleDecode "\x7b\"age\":31\x7d" = .ok [("age", Value.num 31)]
      ∧ handlePatch.build "users" "7" [("age", Value.num 31)]
        = ("UPDATE users SET age = ? WHERE id = ?", [Value.num 31, Value.str "7"]) :=
  ⟨rfl, (update_patch_statement_exact sampleDecode sampleDB State.init
    ⟨"PATCH", goodHeader, [("table", "users"), ("id", "7")], "\x7b\"age\":31\x7d"⟩ "users" "7"
    [("age", Value.num 31)] rfl).2.1⟩

/-- C3 as stated fails: for the table name `t?` the Delete text holds two `?`
characters, while one argument is bound. -/
theorem delete_placeholder_counterexample :
    (handleDelete.build "t?" "7").1 = "DELETE FROM t? WHERE id = ?"
      ∧ placeholders (handleDelete.build "t?" "7").1 = 2
      ∧ (handleDelete.build "t?" "7").2.length = 1 := by
  refine ⟨rfl, by decide, rfl⟩

/-- C3, amended: for every table name and identifier the Delete builder returns
the text `DELETE FROM <table> WHERE id = ?` with the one-element argument list
`[identifier]`, and `handleDelete` submits exactly this statement; the text
holds exactly one placeholder when the table name holds no `?`. -/
theorem delete_statement_exact (db : DB) (st : State) (r : Request) (table id : String) :
    handleDelete.build table id = (deleteText table, [Value.str id])
      ∧ (handleDelete.build table id).2.length = 1
      ∧ (∃ st', handleDelete st r db table id = .ok st'
          ∧ st'.execs = st.execs ++ [(deleteText table, [Value.str id])])
      ∧ (placeholders table = 0 → placeholders (handleDelete.build table id).1 = 1) := by
  refine ⟨rfl, rfl, ⟨_, rfl, rfl⟩, fun ht => ?_⟩
  show placeholders (deleteText table) = 1
  rw [placeholders_deleteText, ht]

/-- The request `DELETE /users/7` as an instance of C3, and the text and the
argument list for the table name `t?`. -/
theorem delete_statement_exact_witness :
    placeholders "users" = 0
      ∧ handleDelete.build "users" "7" = ("DELETE FROM users WHERE id = ?", [Value.str "7"])
      ∧ placeholders (handleDelete.build "users" "7").1 = 1
      ∧ handleDelete.build "t?" "7" = ("DELETE FROM t? WHERE id = ?", [Value.str "7"]) :=
  ⟨by decide,
    (delete_statement_exact sampleDB State.init
      ⟨"DELETE", goodHeader, [("table", "users"), ("id", "7")], ""⟩ "users" "7").1,
    (delete_statement_exact sampleDB State.init
      ⟨"DELETE", goodHeader, [("table", "users"), ("id", "7")], ""⟩ "users" "7").2.2.2
      (by decide),
    (delete_statement_exact sampleDB State.init
      ⟨"DELETE", goodHeader, [("table", "t?"), ("id", "7")], ""⟩ "t?" "7").1⟩

/-- C4 as stated fails: with the column name `a?` the Insert text holds two `?`
characters for a FieldSet of size one, and the Update text holds three. -/
theorem placeholder_count_counterexample :
    handleInsert.build "t" [("a?", Value.num 1)]
        = .ok ("INSERT INTO t (a?) VALUES (?)", [Value.num 1])
      ∧ placeholders "INSERT INTO t (a?) VALUES (?)" = 2
      ∧ (handleUpdate.build "t" "7" [("a?", Value.num 1)]).1 = "UPDATE t SET a? = ? WHERE id = ?"
      ∧ placeholders (handleUpdate.build "t" "7" [("a?", Value.num 1)]).1 = 3
      ∧ (handleUpdate.build "t" "7" [("a?", Value.num 1)]).2.length = 2 := by
  refine ⟨rfl, by decide, rfl, by decide, rfl⟩

/-- C4, amended: when neither the table name nor any column name holds a `?`,
the Insert text of a non-empty FieldSet holds as many placeholders as the
FieldSet has entries, which is the length of its argument list, and the
Update and Patch texts of any FieldSet, the empty one included, hold one more
placeholder than the FieldSet has entries, which is the length of their
argument list, whose last element is the identifier. -/
theorem placeholder_count_matches (table id : String) (data : FieldSet)
    (ht : placeholders table = 0) (hc : ∀ kv ∈ data, placeholders kv.1 = 0) :
    (data ≠ [] →
        handleInsert.build table data
            = .ok (insertText table (data.map Prod.fst), data.map Prod.snd)
          ∧ placeholders (insertText table (data.map Prod.fst)) = data.length
          ∧ (data.map Prod.snd).length = data.length)
      ∧ (placeholders (handleUpdate.build table id data).1 = data.length + 1
          ∧ (handleUpdate.build table id data).2.length = data.length + 1
          ∧ (handleUpdate.build table id data).2.getLast? = some (Value.str id))
      ∧ (placeholders (handlePatch.build table id data).1 = data.length + 1
          ∧ (handlePatch.build table id data).2.length = data.length + 1
          ∧ (handlePatch.build table id data).2.getLast? = some (Value.str id)) := by
  have hs : ((data.map Prod.fst).map placeholders).sum = 0 := by
    apply sum_placeholders_eq_zero
    intro c hmem
    obtain ⟨kv, hkv, rfl⟩ := List.mem_map.1 hmem
    exact hc kv hkv
  have hu : placeholders (updateText table (data.map Prod.fst)) = data.length + 1 := by
    rw [placeholders_updateText, ht, hs, List.length_map]; omega
  refine ⟨fun hne => ⟨build_insert table data hne, ?_, by simp⟩, ?_, ?_⟩
  · rw [placeholders_insertText, ht, hs, List.length_map]; omega
  · rw [build_update]
    exact ⟨hu, by simp, by simp⟩
  · rw [build_patch]
    exact ⟨hu, by simp, by simp⟩

/-- The sample FieldSets as an instance of C4. -/
theorem placeholder_count_matches_witness :
    placeholders "users" = 0
      ∧ placeholders "INSERT INTO users (name, age) VALUES (?, ?)" = 2
      ∧ placeholders (handleUpdate.build "users" "7"
          [("name", Value.str "Ada"), ("age", Value.num 30)]).1 = 2 + 1 :=
  ⟨by decide,
    ((placeholder_count_matches "users" "7" [("name", Value.str "Ada"), ("age", Value.num 30)]
      (by decide) (by simp; decide)).1 (List.cons_ne_nil _ _)).2.1,
    (placeholder_count_matches "users" "7" [("name", Value.str "Ada"), ("age", Value.num 30)]
      (by decide) (by simp; decide)).2.1.1⟩

/-- C7 fails on the code: on the empty FieldSet the count passed to
`strings.Repeat` is `-1`, and the builder of `handleInsert` panics instead of
returning a text. -/
theorem insert_empty_panics (table : String) :
    handleInsert.build table [] = .error "strings: negative Repeat count" := by
  rfl

/-- C9: for every table name, FieldSet and identifier the statement built by
`handleUpdate` and the one built by `handlePatch` are the same text with the
same arguments, and the two handlers submit the same statements to the store. -/
theorem put_patch_same_statement (dec : Decoder) (db : DB) (st : State) (r : Request)
    (table id : String) (data : FieldSet) :
    handleUpdate.build table id data = handlePatch.build table id data
      ∧ (handleUpdate dec st r db table id).map (fun s => (s.built, s.execs))
        = (handlePatch dec st r db table id).map (fun s => (s.built, s.execs)) := by
  refine ⟨rfl, ?_⟩
  unfold handleUpdate handlePatch
  cases dec r.Body <;> rfl

/-! ## The gate, the decoding step and the responses -/

theorem httpError_fresh (w : ResponseWriter) (msg : String) (code : Nat) (hw : w.status = none) :
    httpError w msg code
      = { status := some code, body := w.body ++ (msg ++ "\n"), writes := w.writes + 1 } := by
  simp [httpError, ResponseWriter.Write, ResponseWriter.WriteHeader, hw]

theorem Write_fresh (w : ResponseWriter) (b : String) (hw : w.status = none) :
    w.Write b = { status := some 200, body := w.body ++ b, writes := w.writes + 1 } := by
  simp [ResponseWriter.Write, ResponseWriter.WriteHeader, hw, StatusOK]

theorem WriteHeader_writes (w : ResponseWriter) (code : Nat) :
    (w.WriteHeader code).writes = w.writes := by
  rcases w with ⟨s, b, n⟩
  cases s <;> rfl

theorem Write_writes (w : ResponseWriter) (b : String) : (w.Write b).writes = w.writes + 1 := by
  show (w.WriteHeader StatusOK).writes + 1 = w.writes + 1
  rw [WriteHeader_writes]

theorem httpError_writes (w : ResponseWriter) (msg : String) (code : Nat) :
    (httpError w msg code).writes = w.writes + 1 := by
  unfold httpError
  rw [Write_writes, WriteHeader_writes]

theorem authMiddleware_eq (nxt : HandlerFunc) (st : State) (r : Request) :
    authMiddleware nxt st r
      = if accepted (r.HeaderGet "Authorization") then nxt st r
        else .ok { w := httpError st.w
                      (if r.HeaderGet "Authorization" = "" then "Authorization header missing"
                        else "Invalid token") StatusUnauthorized,
                   built := st.built, execs := st.execs } := by
  unfold authMiddleware accepted
  simp only [TrimPrefix_Bearer]
  by_cases h1 : r.HeaderGet "Authorization" = ""
  · simp [h1]
  · by_cases h2 : stripBearer (r.HeaderGet "Authorization") = bearerToken
    · simp [h1, h2]
    · simp [h1, h2]

/-- C5: for every request and every downstream handler, `authMiddleware` runs
the downstream handler exactly when the Authorization header is non-empty and,
after one leading `Bearer ` is stripped when present, equals the configured
secret; otherwise its result is the same for every downstream handler: status
401 is written, no statement is built and none is submitted to the store. -/
theorem authMiddleware_gate (dec : Decoder) (db : DB) (next : HandlerFunc) (st : State)
    (r : Request) :
    (accepted (r.HeaderGet "Authorization") →
        authMiddleware next st r = next st r
          ∧ serve dec db st r = handleDatabaseRequest dec db st r)
      ∧ (¬ accepted (r.HeaderGet "Authorization") →
        (∀ nxt : HandlerFunc, authMiddleware nxt st r
            = .ok { w := httpError st.w
                          (if r.HeaderGet "Authorization" = "" then "Authorization header missing"
                            else "Invalid token") StatusUnauthorized,
                    built := st.built, execs := st.execs })
          ∧ serve dec db st r
            = .ok { w := httpError st.w
                          (if r.HeaderGet "Authorization" = "" then "Authorization header missing"
                            else "Invalid token") StatusUnauthorized,
                    built := st.built, execs := st.execs }
          ∧ (st.w.status = none → ∀ msg,
              (httpError st.w msg StatusUnauthorized).status = some 401
                ∧ (httpError st.w msg StatusUnauthorized).writes = st.w.writes + 1)) := by
  have key := fun nxt : HandlerFunc => authMiddleware_eq nxt st r
  constructor
  · intro ha
    exact ⟨by rw [key, if_pos ha], by unfold serve; rw [key, if_pos ha]⟩
  · intro ha
    refine ⟨fun nxt => by rw [key, if_neg ha], by unfold serve; rw [key, if_neg ha], ?_⟩
    intro hw msg
    rw [httpError_fresh _ _ _ hw]
    exact ⟨rfl, rfl⟩

/-- The scenario `DELETE /users/7` with an invalid token, and the same request
with the configured secret, as instances of C5. -/
theorem authMiddleware_gate_witness :
    (serve sampleDecode sampleDB State.init
        ⟨"DELETE", goodHeader, [("table", "users"), ("id", "7")], ""⟩
      = handleDatabaseRequest sampleDecode sampleDB State.init
          ⟨"DELETE", goodHeader, [("table", "users"), ("id", "7")], ""⟩)
      ∧ serve sampleDecode sampleDB State.init
          ⟨"DELETE", [("Authorization", ["Bearer wrong"])], [("table", "users"), ("id", "7")], ""⟩
        = .ok { w := { status := some 401, body := "Invalid token\n", writes := 1 },
                built := [], execs := [] } :=
  ⟨((authMiddleware_gate sampleDecode sampleDB (handleDatabaseRequest sampleDecode sampleDB)
      State.init ⟨"DELETE", goodHeader, [("table", "users"), ("id", "7")], ""⟩).1
      (by decide)).2,
    ((authMiddleware_gate sampleDecode sampleDB (handleDatabaseRequest sampleDecode sampleDB)
      State.init
      ⟨"DELETE", [("Authorization", ["Bearer wrong"])], [("table", "users"), ("id", "7")], ""⟩).2
      (by decide)).2.1⟩

/-- C6: for each of `handleInsert`, `handleUpdate` and `handlePatch` and every
body, if decoding the body fails the handler ends normally with the response
`Invalid JSON data` under status 400, having built no statement and submitted
none to the store. -/
theorem malformed_body_rejected (dec : Decoder) (db : DB) (st : State) (r : Request)
    (table id e : String) (hdec : dec r.Body = .error e) :
    handleInsert dec st r db table
        = .ok { w := httpError st.w "Invalid JSON data" StatusBadRequest,
                built := st.built, execs := st.execs }
      ∧ handleUpdate dec st r db table id
        = .ok { w := httpError st.w "Invalid JSON data" StatusBadRequest,
                built := st.built, execs := st.execs }
      ∧ handlePatch dec st r db table id
        = .ok { w := httpError st.w "Invalid JSON data" StatusBadRequest,
                built := st.built, execs := st.execs }
      ∧ (st.w.status = none →
          httpError st.w "Invalid JSON data" StatusBadRequest
            = { status := some 400, body := st.w.body ++ "Invalid JSON data\n",
                writes := st.w.writes + 1 }) := by
  refine ⟨?_, ?_, ?_, fun hw => ?_⟩
  · simp only [handleInsert, hdec]
  · simp only [handleUpdate, hdec]
  · simp only [handlePatch, hdec]
  · rw [httpError_fresh _ _ _ hw]
    rfl

/-- A body that is not JSON, sent to `handleInsert`, as an instance of C6. -/
theorem malformed_body_rejected_witness :
    sampleDecode "not json" = .error "invalid character"
      ∧ handleInsert sampleDecode State.init ⟨"POST", goodHeader, [("table", "users")], "not json"⟩
          sampleDB "users"
        = .ok { w := { status := some 400, body := "Invalid JSON data\n", writes := 1 },
                built := [], execs := [] } :=
  ⟨rfl, (malformed_body_rejected sampleDecode sampleDB State.init
    ⟨"POST", goodHeader, [("table", "users")], "not json"⟩ "users" "" "invalid character" rfl).1⟩

/-- C8 as stated fails: when the function registered as handler has returned
and the server has completed the response with status 200 before the detached
task runs, a failing store leaves the status at 200 for each of the four
operations, where the claim says 500. -/
theorem response_after_completion_counterexample :
    (finishRequest State.init.w).status = some 200
      ∧ failingDB.ExecContext "DELETE FROM users WHERE id = ?" [Value.str "7"]
          = .error "no such table"
      ∧ (handleInsert.run failingDB (finishRequest State.init.w)
          "INSERT INTO users (age) VALUES (?)" [Value.num 31]).status = some 200
      ∧ (handleUpdate.run failingDB (finishRequest State.init.w)
          "UPDATE users SET age = ? WHERE id = ?" [Value.num 31, Value.str "7"]).status = some 200
      ∧ (handlePatch.run failingDB (finishRequest State.init.w)
          "UPDATE users SET age = ? WHERE id = ?" [Value.num 31, Value.str "7"]).status = some 200
      ∧ (handleDelete.run failingDB (finishRequest State.init.w)
          "DELETE FROM users WHERE id = ?" [Value.str "7"]).status = some 200
      ∧ (handleDelete.run failingDB (finishRequest State.init.w)
          "DELETE FROM users WHERE id = ?" [Value.str "7"]).status ≠ some 500 := by
  refine ⟨rfl, rfl, rfl, rfl, rfl, rfl, by decide⟩

/-- C8, amended: for each of the four operations whose task runs on a response
to which nothing was written yet, the response follows the store result: when
`ExecContext` fails with the text `e`, status 500 and the operation's error
prefix followed by `e`; when `RowsAffected` fails with `e`, status 500 and
`Error getting affected rows: ` followed by `e`; when both succeed with count
`n`, the body is the decimal rendering of `n` followed by ` row(s) inserted`,
` row(s) updated`, ` row(s) patched` or ` row(s) deleted`, under the status
200 that a write without an error status carries. -/
theorem response_follows_store (db : DB) (w : ResponseWriter) (query : String)
    (values : List Value) (hw : w.status = none) :
    (∀ e, db.ExecContext query values = .error e →
        handleInsert.run db w query values
            = { status := some 500, body := w.body ++ ("Error inserting data: " ++ e ++ "\n"),
                writes := w.writes + 1 }
          ∧ handleUpdate.run db w query values
            = { status := some 500, body := w.body ++ ("Error updating data: " ++ e ++ "\n"),
                writes := w.writes + 1 }
          ∧ handlePatch.run db w query values
            = { status := some 500, body := w.body ++ ("Error patching data: " ++ e ++ "\n"),
                writes := w.writes + 1 }
          ∧ handleDelete.run db w query values
            = { status := some 500, body := w.body ++ ("Error deleting data: " ++ e ++ "\n"),
                writes := w.writes + 1 })
      ∧ (∀ res e, db.ExecContext query values = .ok res → res.RowsAffected = .error e →
        ∀ run ∈ [handleInsert.run, handleUpdate.run, handlePatch.run, handleDelete.run],
          run db w query values
            = { status := some 500,
                body := w.body ++ ("Error getting affected rows: " ++ e ++ "\n"),
                writes := w.writes + 1 })
      ∧ (∀ res n, db.ExecContext query values = .ok res → res.RowsAffected = .ok n →
        handleInsert.run db w query values
            = { status := some 200, body := w.body ++ (toString n ++ " row(s) inserted"),
                writes := w.writes + 1 }
          ∧ handleUpdate.run db w query values
            = { status := some 200, body := w.body ++ (toString n ++ " row(s) updated"),
                writes := w.writes + 1 }
          ∧ handlePatch.run db w query values
            = { status := some 200, body := w.body ++ (toString n ++ " row(s) patched"),
                writes := w.writes + 1 }
          ∧ handleDelete.run db w query values
            = { status := some 200, body := w.body ++ (toString n ++ " row(s) deleted"),
                writes := w.writes + 1 }) := by
  refine ⟨fun e he => ?_, fun res e he hr run hrun => ?_, fun res n he hr => ?_⟩
  · refine ⟨?_, ?_, ?_, ?_⟩
    · simp only [handleInsert.run, he, httpError_fresh _ _ _ hw, StatusInternalServerError]
    · simp only [handleUpdate.run, he, httpError_fresh _ _ _ hw, StatusInternalServerError]
    · simp only [handlePatch.run, he, httpError_fresh _ _ _ hw, StatusInternalServerError]
    · simp only [handleDelete.run, he, httpError_fresh _ _ _ hw, StatusInternalServerError]
  · simp only [List.mem_cons, List.mem_singleton, List.not_mem_nil, or_false] at hrun
    rcases hrun with rfl | rfl | rfl | rfl
    · simp only [handleInsert.run, he, hr, httpError_fresh _ _ _ hw, StatusInternalServerError]
    · simp only [handleUpdate.run, he, hr, httpError_fresh _ _ _ hw, StatusInternalServerError]
    · simp only [handlePatch.run, he, hr, httpError_fresh _ _ _ hw, StatusInternalServerError]
    · simp only [handleDelete.run, he, hr, httpError_fresh _ _ _ hw, StatusInternalServerError]
  · refine ⟨?_, ?_, ?_, ?_⟩
    · simp only [handleInsert.run, he, hr, Write_fresh _ _ hw, fmtInt]
    · simp only [handleUpdate.run, he, hr, Write_fresh _ _ hw, fmtInt]
    · simp only [handlePatch.run, he, hr, Write_fresh _ _ hw, fmtInt]
    · simp only [handleDelete.run, he, hr, Write_fresh _ _ hw, fmtInt]

/-- A store with three affected rows, and a failing store, as instances of C8. -/
theorem response_follows_store_witness :
    State.init.w.status = none
      ∧ handlePatch.run { ExecContext := fun _ _ => .ok { RowsAffected := .ok 3 } } State.init.w
          "UPDATE users SET age = ? WHERE id = ?" [Value.num 31, Value.str "7"]
        = { status := some 200, body := "3 row(s) patched", writes := 1 }
      ∧ handleDelete.run { ExecContext := fun _ _ => .error "no such table" } State.init.w
          "DELETE FROM users WHERE id = ?" [Value.str "7"]
        = { status := some 500, body := "Error deleting data: no such table\n", writes := 1 } :=
  ⟨rfl,
    ((response_follows_store { ExecContext := fun _ _ => .ok { RowsAffected := .ok 3 } }
      State.init.w "UPDATE users SET age = ? WHERE id = ?" [Value.num 31, Value.str "7"] rfl).2.2
      { RowsAffected := .ok 3 } 3 rfl rfl).2.2.1,
    ((response_follows_store { ExecContext := fun _ _ => .error "no such table" }
      State.init.w "DELETE FROM users WHERE id = ?" [Value.str "7"] rfl).1
      "no such table" rfl).2.2.2⟩

/-! ## The number of response writes -/

/-- C10 fails on the code: an authenticated `POST /users` whose body is the
empty object ends in the panic of `strings.Repeat`, before any write to the
response. -/
theorem empty_insert_never_writes :
    serve sampleDecode sampleDB State.init
        ⟨"POST", goodHeader, [("table", "users")], "\x7b\x7d"⟩
      = .error "strings: negative Repeat count" := by
  rfl

theorem run_writes (db : DB) (w : ResponseWriter) (query : String) (values : List Value) :
    (handleInsert.run db w query values).writes = w.writes + 1
      ∧ (handleUpdate.run db w query values).writes = w.writes + 1
      ∧ (handlePatch.run db w query values).writes = w.writes + 1
      ∧ (handleDelete.run db w query values).writes = w.writes + 1 := by
  unfold handleInsert.run handleUpdate.run handlePatch.run handleDelete.run
  cases db.ExecContext query values with
  | error e => simp only [httpError_writes, and_self]
  | ok res =>
    rcases res with ⟨ra⟩
    cases ra with
    | error e => simp only [httpError_writes, and_self]
    | ok n => simp only [Write_writes, and_self]

/-- Every run of the registered handler either writes to the response exactly
once, or is an authenticated POST whose body decodes to the empty object, which
panics. -/
theorem serve_writes_once_or_panics (dec : Decoder) (db : DB) (st : State) (r : Request) :
    (∃ st', serve dec db st r = .ok st' ∧ st'.w.writes = st.w.writes + 1)
      ∨ (serve dec db st r = .error "strings: negative Repeat count"
          ∧ accepted (r.HeaderGet "Authorization") ∧ r.Method = "POST" ∧ dec r.Body = .ok []) := by
  unfold serve
  rw [authMiddleware_eq]
  by_cases ha : accepted (r.HeaderGet "Authorization")
  · rw [if_pos ha]
    unfold handleDatabaseRequest
    by_cases h1 : r.Method = MethodPost
    · simp only [h1, if_true]
      unfold handleInsert
      cases hdec : dec r.Body with
      | error e => exact Or.inl ⟨_, rfl, httpError_writes _ _ _⟩
      | ok data =>
        by_cases hne : data = []
        · subst hne
          exact Or.inr ⟨rfl, ha, rfl, rfl⟩
        · simp only [build_insert _ _ hne]
          exact Or.inl ⟨_, rfl, (run_writes db st.w _ _).1⟩
    · simp only [h1, if_false]
      by_cases h2 : r.Method = MethodPut
      · simp only [h2, if_true]
        unfold handleUpdate
        cases hdec : dec r.Body with
        | error e => exact Or.inl ⟨_, rfl, httpError_writes _ _ _⟩
        | ok data => exact Or.inl ⟨_, rfl, (run_writes db st.w _ _).2.1⟩
      · simp only [h2, if_false]
        by_cases h3 : r.Method = MethodPatch
        · simp only [h3, if_true]
          unfold handlePatch
          cases hdec : dec r.Body with
          | error e => exact Or.inl ⟨_, rfl, httpError_writes _ _ _⟩
          | ok data => exact Or.inl ⟨_, rfl, (run_writes db st.w _ _).2.2.1⟩
        · simp only [h3, if_false]
          by_cases h4 : r.Method = MethodDelete
          · simp only [h4, if_true]
            exact Or.inl ⟨_, rfl, (run_writes db st.w _ _).2.2.2⟩
          · simp only [h4, if_false]
            exact Or.inl ⟨_, rfl, httpError_writes _ _ _⟩
  · rw [if_neg ha]
    exact Or.inl ⟨_, rfl, httpError_writes _ _ _⟩

end Sqlsrv
